import Mathlib

/-!
Shallow embedding of `src/lambda_function.py`: a serverless CRUD handler over a
single `users_info` key-value table, together with proofs about its behaviour.

Modelling conventions:
* JSON values produced by a successful `json.loads` are the inductive `JsonVal`;
  the raw body string of an event is represented by the outcome of parsing it
  (`BodySlot`), since `json.loads` itself is an external library call.
* The DynamoDB table is a list of records in storage order; `put_item`,
  `get_item`, `scan`, `update_item`, `delete_item` are modelled as pure list
  operations, and every backend call is recorded in an instrumentation log
  (`State.calls`) so that "no storage operation happened" is expressible.
* `uuid.uuid4()` is an opaque supply of fresh unique identifier strings; it is
  determinized as an injective function `uuidStr` of a counter threaded through
  the state.
* Python exceptions that the handler can raise are the inductive `PyExc`;
  handlers return `Except PyExc Response` together with the state at the time
  of return or raise, mirroring `try`/`except` control flow.
* Responses carry their payload as a `JsonVal` (the value passed to
  `json.dumps`), not as a serialized string.
-/

namespace LambdaApi

/-- JSON values, as returned by a successful `json.loads`.  An object's field
list stands for the parsed Python dict (keys distinct, insertion order). -/
inductive JsonVal where
  | jnull
  | jbool (b : Bool)
  | jnum (n : Int)
  | jstr (s : String)
  | jarr (elems : List JsonVal)
  | jobj (fields : List (String × JsonVal))

/-- Python exceptions relevant to the handler's control flow. -/
inductive PyExc where
  | jsonDecodeError
  | keyError
  | typeError
  | attributeError
deriving DecidableEq

/-- The `body` slot of an inbound event, represented by what happens when the
handler evaluates `json.loads(event['body'])`: the key may be absent
(`KeyError`), the value may be `None` (`json.loads` raises `TypeError`), the
string may fail to parse (`JSONDecodeError`), or it parses to a `JsonVal`. -/
inductive BodySlot where
  | absent
  | null
  | malformed
  | parsed (v : JsonVal)

/-- The `pathParameters` slot of an inbound event: the key may be absent (the
code substitutes `{}`), it may be literally `null` (then `.get('user_id')`
raises `AttributeError`), or it is a map whose `user_id` entry is `u`. -/
inductive PathParamsSlot where
  | absent
  | null
  | params (u : Option String)

/-- Inbound event.  `httpMethod` and `path` are read with
`event.get(_, '')`, so an absent key is indistinguishable from `""` and is
modelled as a plain string. -/
structure Event where
  httpMethod : String
  path : String
  pathParameters : PathParamsSlot
  body : BodySlot

/-- Outbound response envelope; `body` is the payload handed to `json.dumps`. -/
structure Response where
  statusCode : Nat
  body : JsonVal

/-- A stored user record: the three attributes written by the handler. -/
structure UserRec where
  user_id : String
  name : JsonVal
  email : JsonVal

/-- Tags for the instrumentation log of backend (DynamoDB) calls. -/
inductive DbOp where
  | putOp
  | getOp
  | scanOp
  | updateOp
  | deleteOp
deriving DecidableEq

/-- Whole-world state: the backend table in storage order, the determinized
uuid counter, and the log of backend calls made so far. -/
structure State where
  table : List UserRec
  nextUuid : Nat
  calls : List DbOp

def USERS_PATH : String := "/users"

def HEALTH_PATH : String := "/health"

/-- Modelled from the source's `uuid.uuid4()` call: an opaque injective supply
of nonempty identifier strings, indexed by the state's counter. -/
def uuidStr (n : Nat) : String := String.mk (List.replicate (n + 1) 'u')

/-- Python `str.startswith`, via character lists. -/
def startswith (p s : String) : Bool := p.toList.isPrefixOf s.toList

/-- Python substring containment `needle in hay` for strings. -/
def strIn (needle hay : String) : Bool :=
  go needle.toList hay.toList
where
  go (ns : List Char) : List Char → Bool
    | [] => ns.isEmpty
    | c :: t => ns.isPrefixOf (c :: t) || go ns t

/-- Python `k in v` after `json.loads`: key membership for dicts, element
membership for lists, substring for strings, `TypeError` otherwise. -/
def jsonHasKey (v : JsonVal) (k : String) : Except PyExc Bool :=
  match v with
  | .jobj fields => .ok (fields.any (fun p => p.1 == k))
  | .jarr elems => .ok (elems.any (fun x => match x with | .jstr s => s == k | _ => false))
  | .jstr s => .ok (strIn k s)
  | _ => .error .typeError

/-- Python `v[k]` after `json.loads`: dict lookup (`KeyError` when missing),
`TypeError` on any non-dict (string keys cannot index lists or strings). -/
def jsonGet (v : JsonVal) (k : String) : Except PyExc JsonVal :=
  match v with
  | .jobj fields =>
    match fields.find? (fun p => p.1 == k) with
    | some p => .ok p.2
    | none => .error .keyError
  | _ => .error .typeError

/-- Evaluation of `json.loads(event['body'])` on the modelled body slot. -/
def loadsEventBody : BodySlot → Except PyExc JsonVal
  | .absent => .error .keyError
  | .null => .error .typeError
  | .malformed => .error .jsonDecodeError
  | .parsed v => .ok v

/-- Evaluation of `event.get('pathParameters', {}).get('user_id')`. -/
def getUserIdParam : PathParamsSlot → Except PyExc (Option String)
  | .absent => .ok none
  | .null => .error .attributeError
  | .params u => .ok u

/-- Python falsiness of the extracted `user_id` (`if not user_id:`):
`None` and the empty string are falsy. -/
def falsyId : Option String → Bool
  | none => true
  | some s => s == ""

/-- DynamoDB `put_item`: overwrite the item with the same key in place, or
append a new item. -/
def putItem (t : List UserRec) (item : UserRec) : List UserRec :=
  if t.any (fun r => r.user_id == item.user_id) then
    t.map (fun r => if r.user_id == item.user_id then item else r)
  else t ++ [item]

/-- DynamoDB `get_item` by key. -/
def getItem (t : List UserRec) (uid : String) : Option UserRec :=
  t.find? (fun r => r.user_id == uid)

/-- DynamoDB `update_item` with `SET #name = :name, email = :email`: overwrite
the two attributes on the keyed item, creating the item if absent. -/
def updateItem (t : List UserRec) (uid : String) (nm em : JsonVal) : List UserRec :=
  if t.any (fun r => r.user_id == uid) then
    t.map (fun r => if r.user_id == uid then { r with name := nm, email := em } else r)
  else t ++ [⟨uid, nm, em⟩]

/-- DynamoDB `delete_item` by key (no existence check). -/
def deleteItem (t : List UserRec) (uid : String) : List UserRec :=
  t.filter (fun r => !(r.user_id == uid))

/-- The record as serialized into response bodies and list entries. -/
def recToJson (u : UserRec) : JsonVal :=
  .jobj [("user_id", .jstr u.user_id), ("name", u.name), ("email", u.email)]

/-- Source `success_response(data, status_code)` (the Python default argument
`status_code=200` is written explicitly at call sites). -/
def success_response (data : JsonVal) (status_code : Nat) : Response :=
  ⟨status_code, data⟩

/-- Source `error_response(status_code, message)`. -/
def error_response (status_code : Nat) (message : String) : Response :=
  ⟨status_code, .jobj [("error", .jstr message)]⟩

/-- Result of one handler body: a response or a raised exception, with the
state at that moment. -/
abbrev HandlerOut := Except PyExc Response × State

/-- Modelled `str(e)` for exceptions reaching the generic `except Exception`
handler; follows CPython's messages. -/
def pyExcMessage : PyExc → String
  | .jsonDecodeError => "Expecting value: line 1 column 1 (char 0)"
  | .keyError => "'body'"
  | .typeError => "the JSON object must be str, bytes or bytearray, not NoneType"
  | .attributeError => "'NoneType' object has no attribute 'get'"

/-- Source `create_user(event)`: parse body, require `name` and `email`,
generate a fresh id, write the three-field record, return 201 with it.
The inner `except (BotoCoreError, ClientError)` clause is not modelled as
firing: backend calls are modelled as succeeding. -/
def create_user (e : Event) (s : State) : HandlerOut :=
  match loadsEventBody e.body with
  | .error exc => (.error exc, s)
  | .ok body =>
    match jsonHasKey body "name" with
    | .error exc => (.error exc, s)
    | .ok nameIn =>
      if !nameIn then (.ok (error_response 400 "Missing required fields: name, email"), s)
      else
        match jsonHasKey body "email" with
        | .error exc => (.error exc, s)
        | .ok emailIn =>
          if !emailIn then (.ok (error_response 400 "Missing required fields: name, email"), s)
          else
            let user_id := uuidStr s.nextUuid
            let s1 : State := { s with nextUuid := s.nextUuid + 1 }
            match jsonGet body "name" with
            | .error exc => (.error exc, s1)
            | .ok nm =>
              match jsonGet body "email" with
              | .error exc => (.error exc, s1)
              | .ok em =>
                let user_data : UserRec := ⟨user_id, nm, em⟩
                (.ok (success_response (recToJson user_data) 201),
                 { s1 with table := putItem s1.table user_data,
                           calls := s1.calls ++ [DbOp.putOp] })

/-- Source `list_all_users()`: scan the table and return all records. -/
def list_all_users (s : State) : HandlerOut :=
  (.ok (success_response (.jarr (s.table.map recToJson)) 200),
   { s with calls := s.calls ++ [DbOp.scanOp] })

/-- Source `get_user(event)`: a falsy `user_id` lists all users; otherwise a
single `get_item`, 404 when the item is missing, 200 with the record else. -/
def get_user (e : Event) (s : State) : HandlerOut :=
  match getUserIdParam e.pathParameters with
  | .error exc => (.error exc, s)
  | .ok uid? =>
    if falsyId uid? then list_all_users s
    else
      let uid := uid?.getD ""
      let s1 : State := { s with calls := s.calls ++ [DbOp.getOp] }
      match getItem s.table uid with
      | none => (.ok (error_response 404 "User not found"), s1)
      | some user => (.ok (success_response (recToJson user) 200), s1)

/-- Source `update_user(event)`: require a truthy `user_id`, parse body,
require `name` and `email`, then an unconditional attribute overwrite. -/
def update_user (e : Event) (s : State) : HandlerOut :=
  match getUserIdParam e.pathParameters with
  | .error exc => (.error exc, s)
  | .ok uid? =>
    if falsyId uid? then (.ok (error_response 400 "Missing user ID"), s)
    else
      let uid := uid?.getD ""
      match loadsEventBody e.body with
      | .error exc => (.error exc, s)
      | .ok body =>
        match jsonHasKey body "name" with
        | .error exc => (.error exc, s)
        | .ok nameIn =>
          if !nameIn then (.ok (error_response 400 "Missing required fields: name, email"), s)
          else
            match jsonHasKey body "email" with
            | .error exc => (.error exc, s)
            | .ok emailIn =>
              if !emailIn then
                (.ok (error_response 400 "Missing required fields: name, email"), s)
              else
                match jsonGet body "name" with
                | .error exc => (.error exc, s)
                | .ok nm =>
                  match jsonGet body "email" with
                  | .error exc => (.error exc, s)
                  | .ok em =>
                    (.ok (success_response
                            (.jobj [("message", .jstr "User updated successfully")]) 200),
                     { s with table := updateItem s.table uid nm em,
                              calls := s.calls ++ [DbOp.updateOp] })

/-- Source `delete_user(event)`: require a truthy `user_id`, delete
unconditionally, return 204 with a confirmation message. -/
def delete_user (e : Event) (s : State) : HandlerOut :=
  match getUserIdParam e.pathParameters with
  | .error exc => (.error exc, s)
  | .ok uid? =>
    if falsyId uid? then (.ok (error_response 400 "Missing user ID"), s)
    else
      let uid := uid?.getD ""
      (.ok (success_response
              (.jobj [("message", .jstr ("User " ++ uid ++ " deleted successfully"))]) 204),
       { s with table := deleteItem s.table uid,
                calls := s.calls ++ [DbOp.deleteOp] })

/-- The two outer `except` clauses of `lambda_handler`: a `JSONDecodeError`
becomes 400 `Invalid JSON format`, any other exception becomes 500
`Internal Server Error: ...`; a normal return passes through. -/
def toResponse : HandlerOut → Response × State
  | (.ok r, s1) => (r, s1)
  | (.error .jsonDecodeError, s1) => (error_response 400 "Invalid JSON format", s1)
  | (.error exc, s1) =>
    (error_response 500 ("Internal Server Error: " ++ pyExcMessage exc), s1)

/-- Source `lambda_handler(event, context)`: the ordered dispatch over
(method, path), wrapped in the outer exception-to-response translation. -/
def lambda_handler (e : Event) (s : State) : Response × State :=
  toResponse
    (if e.httpMethod = "GET" ∧ e.path = HEALTH_PATH then
      (.ok (success_response (.jobj [("message", .jstr "API is up and running")]) 200), s)
    else if e.httpMethod = "POST" ∧ e.path = USERS_PATH then create_user e s
    else if e.httpMethod = "GET" ∧ startswith USERS_PATH e.path = true then get_user e s
    else if e.httpMethod = "PUT" ∧ startswith USERS_PATH e.path = true then update_user e s
    else if e.httpMethod = "DELETE" ∧ startswith USERS_PATH e.path = true then delete_user e s
    else (.ok (error_response 405 "Method Not Allowed"), s))

/-- Empty initial world used by concrete witnesses. -/
def st0 : State := ⟨[], 0, []⟩

/-- A well-formed create request used by concrete witnesses. -/
def bodyAna : JsonVal :=
  .jobj [("name", .jstr "Ana"), ("email", .jstr "ana@x.com")]

/-- Concrete POST /users event used by witnesses. -/
def evAna : Event := ⟨"POST", "/users", .absent, .parsed bodyAna⟩

/-- World holding one stored user, used by witnesses. -/
def stAna : State := ⟨[⟨"u", .jstr "Ana", .jstr "ana@x.com"⟩], 1, []⟩

/-- Concrete PUT /users/u event used by witnesses. -/
def evPutBia : Event :=
  ⟨"PUT", "/users/u", .params (some "u"),
   .parsed (.jobj [("name", .jstr "Bia"), ("email", .jstr "bia@x.com")])⟩

/-! ### Basic facts about the modelled uuid supply and paths -/

theorem uuidStr_length (n : Nat) : (uuidStr n).length = n + 1 := by
  simp [uuidStr]

theorem uuidStr_inj {m n : Nat} (h : uuidStr m = uuidStr n) : m = n := by
  have := congrArg String.length h
  rw [uuidStr_length, uuidStr_length] at this
  omega

theorem uuidStr_ne_empty (n : Nat) : uuidStr n ≠ "" := by
  intro h
  have := congrArg String.length h
  rw [uuidStr_length] at this
  simp at this

theorem falsyId_some_iff (u : String) : falsyId (some u) = false ↔ u ≠ "" := by
  simp [falsyId]

theorem startswith_users_ne_health {p : String}
    (h : startswith USERS_PATH p = true) : p ≠ HEALTH_PATH := by
  intro he
  subst he
  exact absurd h (by decide)

/-! ### Dispatch lemmas: which handler an event reaches -/

theorem lambda_handler_health (e : Event) (s : State)
    (hm : e.httpMethod = "GET") (hp : e.path = HEALTH_PATH) :
    lambda_handler e s =
      (success_response (.jobj [("message", .jstr "API is up and running")]) 200, s) := by
  unfold lambda_handler
  rw [hm, hp]
  simp [toResponse]

theorem lambda_handler_post (e : Event) (s : State)
    (hm : e.httpMethod = "POST") (hp : e.path = USERS_PATH) :
    lambda_handler e s = toResponse (create_user e s) := by
  unfold lambda_handler
  rw [hm, hp]
  simp

theorem lambda_handler_get (e : Event) (s : State)
    (hm : e.httpMethod = "GET") (hp : startswith USERS_PATH e.path = true) :
    lambda_handler e s = toResponse (get_user e s) := by
  unfold lambda_handler
  rw [hm]
  simp [hp, startswith_users_ne_health hp]

theorem lambda_handler_put (e : Event) (s : State)
    (hm : e.httpMethod = "PUT") (hp : startswith USERS_PATH e.path = true) :
    lambda_handler e s = toResponse (update_user e s) := by
  unfold lambda_handler
  rw [hm]
  simp [hp]

theorem lambda_handler_delete (e : Event) (s : State)
    (hm : e.httpMethod = "DELETE") (hp : startswith USERS_PATH e.path = true) :
    lambda_handler e s = toResponse (delete_user e s) := by
  unfold lambda_handler
  rw [hm]
  simp [hp]

/-! ### Table lemmas -/

theorem getItem_map_replace (t : List UserRec) (uid : String) (target : UserRec)
    (g : UserRec → UserRec)
    (hg1 : ∀ r, (r.user_id == uid) = true → g r = target)
    (hg2 : ∀ r, (r.user_id == uid) = false → g r = r)
    (htarget : target.user_id = uid)
    (h : t.any (fun r => r.user_id == uid) = true) :
    getItem (t.map g) uid = some target := by
  induction t with
  | nil => simp at h
  | cons r t ih =>
    simp only [List.any_cons, Bool.or_eq_true] at h
    by_cases hr : (r.user_id == uid) = true
    · rw [List.map_cons, hg1 r hr]
      unfold getItem
      rw [List.find?_cons_of_pos _ (by simp [htarget])]
    · have hf : (r.user_id == uid) = false := by
        rw [← Bool.not_eq_true]
        exact hr
      have h' : t.any (fun r => r.user_id == uid) = true := by
        rcases h with h | h
        · exact absurd h hr
        · exact h
      rw [List.map_cons, hg2 r hf]
      unfold getItem
      rw [@List.find?_cons_of_neg _ (fun x : UserRec => x.user_id == uid) r _ hr]
      exact ih h'

theorem getItem_append_new (t : List UserRec) (target : UserRec) (uid : String)
    (htarget : target.user_id = uid)
    (h : t.any (fun r => r.user_id == uid) = false) :
    getItem (t ++ [target]) uid = some target := by
  induction t with
  | nil =>
    unfold getItem
    rw [List.nil_append, List.find?_cons_of_pos _ (by simp [htarget])]
  | cons r t ih =>
    simp only [List.any_cons, Bool.or_eq_false_iff] at h
    unfold getItem
    rw [List.cons_append, List.find?_cons_of_neg _ (by simp [h.1])]
    exact ih h.2

theorem getItem_putItem (t : List UserRec) (item : UserRec) :
    getItem (putItem t item) item.user_id = some item := by
  unfold putItem
  split
  next h =>
    exact getItem_map_replace t item.user_id item _
      (fun r hr => if_pos hr) (fun r hr => if_neg (by simp [hr])) rfl h
  next h =>
    exact getItem_append_new t item item.user_id rfl ((Bool.not_eq_true _).mp h)

theorem getItem_updateItem (t : List UserRec) (uid : String) (nm em : JsonVal) :
    getItem (updateItem t uid nm em) uid = some ⟨uid, nm, em⟩ := by
  unfold updateItem
  split
  next h =>
    refine getItem_map_replace t uid ⟨uid, nm, em⟩ _ ?_ ?_ rfl h
    · intro r hr
      have huid : r.user_id = uid := by simpa using hr
      rw [if_pos hr]
      cases r
      simp_all
    · intro r hr
      exact if_neg (by simp [hr])
  next h =>
    exact getItem_append_new t ⟨uid, nm, em⟩ uid rfl ((Bool.not_eq_true _).mp h)

theorem getItem_deleteItem (t : List UserRec) (uid : String) :
    getItem (deleteItem t uid) uid = none := by
  induction t with
  | nil => rfl
  | cons r t ih =>
    unfold deleteItem at ih ⊢
    by_cases hr : (r.user_id == uid) = true
    · rw [List.filter_cons, if_neg (by simp [hr])]
      exact ih
    · rw [List.filter_cons, if_pos (by simpa using hr)]
      unfold getItem
      rw [@List.find?_cons_of_neg _ (fun x : UserRec => x.user_id == uid) r _ hr]
      exact ih

theorem updateItem_idem (t : List UserRec) (uid : String) (nm em : JsonVal) :
    updateItem (updateItem t uid nm em) uid nm em = updateItem t uid nm em := by
  unfold updateItem
  by_cases h : t.any (fun r => r.user_id == uid) = true
  · rw [if_pos h]
    have hcomp : ((fun r : UserRec => r.user_id == uid) ∘ (fun r : UserRec =>
        if (r.user_id == uid) = true then { r with name := nm, email := em } else r))
        = fun r : UserRec => r.user_id == uid := by
      funext r
      by_cases hq : r.user_id = uid <;> simp [Function.comp, hq]
    have hany : (t.map (fun r =>
        if (r.user_id == uid) = true then { r with name := nm, email := em } else r)).any
        (fun r => r.user_id == uid) = true := by
      rw [List.any_map, hcomp]
      exact h
    rw [if_pos hany, List.map_map]
    refine congrArg (fun f => List.map f t) (funext fun r => ?_)
    by_cases hq : r.user_id = uid <;> simp [Function.comp, hq]
  · rw [if_neg h]
    have hany : (t ++ [(⟨uid, nm, em⟩ : UserRec)]).any (fun r => r.user_id == uid) = true := by
      simp [List.any_append]
    rw [if_pos hany, List.map_append]
    have hmapt : t.map (fun r =>
        if (r.user_id == uid) = true then { r with name := nm, email := em } else r) = t := by
      have hall : ∀ r ∈ t, ¬ (r.user_id == uid) = true :=
        List.any_eq_false.mp ((Bool.not_eq_true _).mp h)
      calc t.map _ = t.map id := by
            refine List.map_congr_left fun r hr => ?_
            rw [if_neg (hall r hr)]
            rfl
        _ = t := List.map_id t
    rw [hmapt]
    simp

/-! ### JSON lookup lemmas -/

theorem any_key_of_find? {fs : List (String × JsonVal)} {k : String} {pr : String × JsonVal}
    (h : fs.find? (fun p => p.1 == k) = some pr) :
    fs.any (fun p => p.1 == k) = true :=
  List.any_eq_true.mpr
    ⟨pr, List.mem_of_find?_eq_some h,
     @List.find?_some _ (fun p => p.1 == k) pr fs h⟩

theorem jsonGet_obj_ok {fs : List (String × JsonVal)} {k : String} {v : JsonVal}
    (h : jsonGet (.jobj fs) k = .ok v) :
    ∃ pr, fs.find? (fun p => p.1 == k) = some pr ∧ pr.2 = v := by
  have h' : (match fs.find? (fun p => p.1 == k) with
      | some p => Except.ok p.2
      | none => Except.error PyExc.keyError) = Except.ok v := h
  cases hf : fs.find? (fun p => p.1 == k) with
  | none => rw [hf] at h'; cases h'
  | some pr =>
    rw [hf] at h'
    exact ⟨pr, rfl, by injection h'⟩

/-! ### Handler evaluation lemmas -/

theorem create_user_eval (e : Event) (s : State) (fs : List (String × JsonVal))
    (nm em : JsonVal)
    (hb : e.body = .parsed (.jobj fs))
    (hnm : jsonGet (.jobj fs) "name" = .ok nm)
    (hem : jsonGet (.jobj fs) "email" = .ok em) :
    create_user e s =
      (.ok (success_response (recToJson ⟨uuidStr s.nextUuid, nm, em⟩) 201),
       { table := putItem s.table ⟨uuidStr s.nextUuid, nm, em⟩,
         nextUuid := s.nextUuid + 1,
         calls := s.calls ++ [DbOp.putOp] }) := by
  obtain ⟨pn, hfn, hvn⟩ := jsonGet_obj_ok hnm
  obtain ⟨pe, hfe, hve⟩ := jsonGet_obj_ok hem
  have han : fs.any (fun p => p.1 == "name") = true := any_key_of_find? hfn
  have hae : fs.any (fun p => p.1 == "email") = true := any_key_of_find? hfe
  unfold create_user
  rw [hb]
  simp [loadsEventBody, jsonHasKey, jsonGet, han, hae, hfn, hfe, hvn, hve]

theorem get_user_list (e : Event) (s : State)
    (hpp : e.pathParameters = .absent ∨ e.pathParameters = .params none ∨
           e.pathParameters = .params (some "")) :
    get_user e s = (.ok (success_response (.jarr (s.table.map recToJson)) 200),
      { s with calls := s.calls ++ [DbOp.scanOp] }) := by
  unfold get_user
  rcases hpp with h | h | h <;> rw [h] <;>
    simp [getUserIdParam, falsyId, list_all_users]

theorem get_user_found (e : Event) (s : State) (uid : String) (u : UserRec)
    (hpp : e.pathParameters = .params (some uid)) (hne : uid ≠ "")
    (hfound : getItem s.table uid = some u) :
    get_user e s = (.ok (success_response (recToJson u) 200),
      { s with calls := s.calls ++ [DbOp.getOp] }) := by
  unfold get_user
  rw [hpp]
  simp [getUserIdParam, falsyId, hne, hfound]

theorem get_user_notfound (e : Event) (s : State) (uid : String)
    (hpp : e.pathParameters = .params (some uid)) (hne : uid ≠ "")
    (hmiss : getItem s.table uid = none) :
    get_user e s = (.ok (error_response 404 "User not found"),
      { s with calls := s.calls ++ [DbOp.getOp] }) := by
  unfold get_user
  rw [hpp]
  simp [getUserIdParam, falsyId, hne, hmiss]

theorem update_user_eval (e : Event) (s : State) (uid : String)
    (fs : List (String × JsonVal)) (nm em : JsonVal)
    (hpp : e.pathParameters = .params (some uid)) (hne : uid ≠ "")
    (hb : e.body = .parsed (.jobj fs))
    (hnm : jsonGet (.jobj fs) "name" = .ok nm)
    (hem : jsonGet (.jobj fs) "email" = .ok em) :
    update_user e s =
      (.ok (success_response (.jobj [("message", .jstr "User updated successfully")]) 200),
       { s with table := updateItem s.table uid nm em,
                calls := s.calls ++ [DbOp.updateOp] }) := by
  obtain ⟨pn, hfn, hvn⟩ := jsonGet_obj_ok hnm
  obtain ⟨pe, hfe, hve⟩ := jsonGet_obj_ok hem
  have han : fs.any (fun p => p.1 == "name") = true := any_key_of_find? hfn
  have hae : fs.any (fun p => p.1 == "email") = true := any_key_of_find? hfe
  unfold update_user
  rw [hpp, hb]
  simp [getUserIdParam, falsyId, hne, loadsEventBody, jsonHasKey, jsonGet,
    han, hae, hfn, hfe, hvn, hve]

theorem delete_user_eval (e : Event) (s : State) (uid : String)
    (hpp : e.pathParameters = .params (some uid)) (hne : uid ≠ "") :
    delete_user e s =
      (.ok (success_response
              (.jobj [("message", .jstr ("User " ++ uid ++ " deleted successfully"))]) 204),
       { s with table := deleteItem s.table uid,
                calls := s.calls ++ [DbOp.deleteOp] }) := by
  unfold delete_user
  rw [hpp]
  simp [getUserIdParam, falsyId, hne]

/-! ### Atomicity of validation failures -/

theorem create_user_atomic (e : Event) (s : State)
    (h400 : (toResponse (create_user e s)).1.statusCode = 400) :
    (toResponse (create_user e s)).2 = s := by
  cases hbs : e.body with
  | absent => simp [create_user, loadsEventBody, toResponse, hbs]
  | null => simp [create_user, loadsEventBody, toResponse, hbs]
  | malformed => simp [create_user, loadsEventBody, toResponse, hbs]
  | parsed v =>
    cases v with
    | jnull => simp [create_user, loadsEventBody, jsonHasKey, toResponse, hbs]
    | jbool b => simp [create_user, loadsEventBody, jsonHasKey, toResponse, hbs]
    | jnum n => simp [create_user, loadsEventBody, jsonHasKey, toResponse, hbs]
    | jstr str =>
      by_cases hn : strIn "name" str = true
      · by_cases he : strIn "email" str = true
        · simp [create_user, loadsEventBody, jsonHasKey, jsonGet, toResponse,
            error_response, hbs, hn, he] at h400
        · have he' : strIn "email" str = false := (Bool.not_eq_true _).mp he
          simp [create_user, loadsEventBody, jsonHasKey, toResponse, hbs, hn, he']
      · have hn' : strIn "name" str = false := (Bool.not_eq_true _).mp hn
        simp [create_user, loadsEventBody, jsonHasKey, toResponse, hbs, hn']
    | jarr elems =>
      by_cases hn : elems.any (fun x => match x with | .jstr s => s == "name" | _ => false) = true
      · by_cases he : elems.any
            (fun x => match x with | .jstr s => s == "email" | _ => false) = true
        · simp [create_user, loadsEventBody, jsonHasKey, jsonGet, toResponse,
            error_response, hbs, hn, he] at h400
        · have he' := (Bool.not_eq_true _).mp he
          simp [create_user, loadsEventBody, jsonHasKey, toResponse, hbs, hn, he']
      · have hn' := (Bool.not_eq_true _).mp hn
        simp [create_user, loadsEventBody, jsonHasKey, toResponse, hbs, hn']
    | jobj fields =>
      by_cases hn : fields.any (fun p => p.1 == "name") = true
      · by_cases he : fields.any (fun p => p.1 == "email") = true
        · cases hfn : fields.find? (fun p => p.1 == "name") with
          | none =>
            simp [create_user, loadsEventBody, jsonHasKey, jsonGet, toResponse,
              error_response, hbs, hn, he, hfn] at h400
          | some pn =>
            cases hfe : fields.find? (fun p => p.1 == "email") with
            | none =>
              simp [create_user, loadsEventBody, jsonHasKey, jsonGet, toResponse,
                error_response, hbs, hn, he, hfn, hfe] at h400
            | some pe =>
              simp [create_user, loadsEventBody, jsonHasKey, jsonGet, toResponse,
                success_response, hbs, hn, he, hfn, hfe] at h400
        · have he' := (Bool.not_eq_true _).mp he
          simp [create_user, loadsEventBody, jsonHasKey, toResponse, hbs, hn, he']
      · have hn' := (Bool.not_eq_true _).mp hn
        simp [create_user, loadsEventBody, jsonHasKey, toResponse, hbs, hn']

theorem update_user_atomic (e : Event) (s : State)
    (h400 : (toResponse (update_user e s)).1.statusCode = 400) :
    (toResponse (update_user e s)).2 = s := by
  cases hpp : e.pathParameters with
  | null => simp [update_user, getUserIdParam, toResponse, hpp]
  | absent => simp [update_user, getUserIdParam, falsyId, toResponse, hpp]
  | params u =>
    cases u with
    | none => simp [update_user, getUserIdParam, falsyId, toResponse, hpp]
    | some uid =>
      by_cases hu : uid = ""
      · simp [update_user, getUserIdParam, falsyId, toResponse, hpp, hu]
      · cases hbs : e.body with
        | absent => simp [update_user, getUserIdParam, falsyId, loadsEventBody,
            toResponse, hpp, hu, hbs]
        | null => simp [update_user, getUserIdParam, falsyId, loadsEventBody,
            toResponse, hpp, hu, hbs]
        | malformed => simp [update_user, getUserIdParam, falsyId, loadsEventBody,
            toResponse, hpp, hu, hbs]
        | parsed v =>
          cases v with
          | jnull => simp [update_user, getUserIdParam, falsyId, loadsEventBody,
              jsonHasKey, toResponse, hpp, hu, hbs]
          | jbool b => simp [update_user, getUserIdParam, falsyId, loadsEventBody,
              jsonHasKey, toResponse, hpp, hu, hbs]
          | jnum n => simp [update_user, getUserIdParam, falsyId, loadsEventBody,
              jsonHasKey, toResponse, hpp, hu, hbs]
          | jstr str =>
            by_cases hn : strIn "name" str = true
            · by_cases he : strIn "email" str = true
              · simp [update_user, getUserIdParam, falsyId, loadsEventBody,
                  jsonHasKey, jsonGet, toResponse, hpp, hu, hbs, hn, he]
              · have he' := (Bool.not_eq_true _).mp he
                simp [update_user, getUserIdParam, falsyId, loadsEventBody,
                  jsonHasKey, toResponse, hpp, hu, hbs, hn, he']
            · have hn' := (Bool.not_eq_true _).mp hn
              simp [update_user, getUserIdParam, falsyId, loadsEventBody,
                jsonHasKey, toResponse, hpp, hu, hbs, hn']
          | jarr elems =>
            by_cases hn : elems.any
                (fun x => match x with | .jstr s => s == "name" | _ => false) = true
            · by_cases he : elems.any
                  (fun x => match x with | .jstr s => s == "email" | _ => false) = true
              · simp [update_user, getUserIdParam, falsyId, loadsEventBody,
                  jsonHasKey, jsonGet, toResponse, hpp, hu, hbs, hn, he]
              · have he' := (Bool.not_eq_true _).mp he
                simp [update_user, getUserIdParam, falsyId, loadsEventBody,
                  jsonHasKey, toResponse, hpp, hu, hbs, hn, he']
            · have hn' := (Bool.not_eq_true _).mp hn
              simp [update_user, getUserIdParam, falsyId, loadsEventBody,
                jsonHasKey, toResponse, hpp, hu, hbs, hn']
          | jobj fields =>
            by_cases hn : fields.any (fun p => p.1 == "name") = true
            · by_cases he : fields.any (fun p => p.1 == "email") = true
              · cases hfn : fields.find? (fun p => p.1 == "name") with
                | none =>
                  simp [update_user, getUserIdParam, falsyId, loadsEventBody,
                    jsonHasKey, jsonGet, toResponse, hpp, hu, hbs, hn, he, hfn]
                | some pn =>
                  cases hfe : fields.find? (fun p => p.1 == "email") with
                  | none =>
                    simp [update_user, getUserIdParam, falsyId, loadsEventBody,
                      jsonHasKey, jsonGet, toResponse, hpp, hu, hbs, hn, he, hfn, hfe]
                  | some pe =>
                    simp [update_user, getUserIdParam, falsyId, loadsEventBody,
                      jsonHasKey, jsonGet, toResponse, success_response,
                      hpp, hu, hbs, hn, he, hfn, hfe] at h400
              · have he' := (Bool.not_eq_true _).mp he
                simp [update_user, getUserIdParam, falsyId, loadsEventBody,
                  jsonHasKey, toResponse, hpp, hu, hbs, hn, he']
            · have hn' := (Bool.not_eq_true _).mp hn
              simp [update_user, getUserIdParam, falsyId, loadsEventBody,
                jsonHasKey, toResponse, hpp, hu, hbs, hn']

/-! ### Claim theorems -/

/-- Claim C9: every event matching none of the five dispatch rules gets a 405
`Method Not Allowed` response and leaves the whole state (table, uuid counter
and backend-call log) untouched, so no storage operation is reached. -/
theorem method_not_allowed (e : Event) (s : State)
    (h1 : ¬(e.httpMethod = "GET" ∧ e.path = HEALTH_PATH))
    (h2 : ¬(e.httpMethod = "POST" ∧ e.path = USERS_PATH))
    (h3 : ¬(e.httpMethod = "GET" ∧ startswith USERS_PATH e.path = true))
    (h4 : ¬(e.httpMethod = "PUT" ∧ startswith USERS_PATH e.path = true))
    (h5 : ¬(e.httpMethod = "DELETE" ∧ startswith USERS_PATH e.path = true)) :
    lambda_handler e s = (error_response 405 "Method Not Allowed", s) := by
  unfold lambda_handler
  rw [if_neg h1, if_neg h2, if_neg h3, if_neg h4, if_neg h5]
  rfl

/-- Witness for C9 at a concrete PATCH event. -/
theorem method_not_allowed_witness :
    lambda_handler ⟨"PATCH", "/users", .absent, .absent⟩ st0
      = (error_response 405 "Method Not Allowed", st0) :=
  method_not_allowed _ st0 (by decide) (by decide) (by decide) (by decide) (by decide)

/-- Claim C3: a POST /users event whose body parses to a JSON object missing
`name` or missing `email` yields exactly 400 with the fixed error body, for
any other fields, and the state is unchanged. -/
theorem create_missing_fields (e : Event) (s : State) (fs : List (String × JsonVal))
    (hm : e.httpMethod = "POST") (hp : e.path = USERS_PATH)
    (hb : e.body = .parsed (.jobj fs))
    (hmiss : fs.any (fun p => p.1 == "name") = false ∨
             fs.any (fun p => p.1 == "email") = false) :
    lambda_handler e s =
      (error_response 400 "Missing required fields: name, email", s) := by
  rw [lambda_handler_post e s hm hp]
  rcases hmiss with h | h
  · simp [create_user, loadsEventBody, jsonHasKey, toResponse, hb, h]
  · by_cases hn : fs.any (fun p => p.1 == "name") = true
    · simp [create_user, loadsEventBody, jsonHasKey, toResponse, hb, hn, h]
    · have hn' := (Bool.not_eq_true _).mp hn
      simp [create_user, loadsEventBody, jsonHasKey, toResponse, hb, hn']

/-- Witness for C3: a body with `name` only. -/
theorem create_missing_fields_witness :
    lambda_handler ⟨"POST", "/users", .absent, .parsed (.jobj [("name", .jstr "Ana")])⟩ st0
      = (error_response 400 "Missing required fields: name, email", st0) :=
  create_missing_fields _ st0 _ rfl rfl rfl (Or.inr (by decide))

/-- Claim C5: a GET /users/{user_id} event with a (nonempty) `user_id` path
parameter yields 404 `User not found` when no record with that key exists,
and 200 with the record when it does. -/
theorem get_single_user (e : Event) (s : State) (uid : String)
    (hm : e.httpMethod = "GET") (hp : startswith USERS_PATH e.path = true)
    (hpp : e.pathParameters = .params (some uid)) (hne : uid ≠ "") :
    (getItem s.table uid = none →
      lambda_handler e s = (error_response 404 "User not found",
        { s with calls := s.calls ++ [DbOp.getOp] })) ∧
    (∀ u, getItem s.table uid = some u →
      lambda_handler e s = (success_response (recToJson u) 200,
        { s with calls := s.calls ++ [DbOp.getOp] })) := by
  constructor
  · intro hmiss
    rw [lambda_handler_get e s hm hp, get_user_notfound e s uid hpp hne hmiss]
    rfl
  · intro u hfound
    rw [lambda_handler_get e s hm hp, get_user_found e s uid u hpp hne hfound]
    rfl

/-- Witness for C5: fetching an absent id from the empty table gives 404. -/
theorem get_single_user_witness :
    lambda_handler ⟨"GET", "/users/zzz", .params (some "zzz"), .absent⟩ st0
      = (error_response 404 "User not found", ⟨[], 0, [DbOp.getOp]⟩) :=
  (get_single_user _ st0 "zzz" rfl (by decide) rfl (by decide)).1 rfl

/-- Counterexample to C4 as stated: a GET /users event whose
`pathParameters` field is literally null is answered with 500 (the code calls
`.get` on `None`, raising `AttributeError`), not with the 200 list. -/
theorem get_null_pathparams_500 :
    (lambda_handler ⟨"GET", "/users", PathParamsSlot.null, .absent⟩ st0).1.statusCode = 500 ∧
    ¬ (lambda_handler ⟨"GET", "/users", PathParamsSlot.null, .absent⟩ st0).1.statusCode
        = 200 :=
  ⟨rfl, by decide⟩

/-- Claim C4 (amended): for GET events under the users path, a present
nonempty `user_id` fetches the single record; an absent `pathParameters`
key, or a parameter map whose `user_id` is missing or empty, lists the whole
collection with 200; a literally null `pathParameters` raises
`AttributeError`, surfaced as a 500 response. -/
theorem get_users_route_amended (e : Event) (s : State)
    (hm : e.httpMethod = "GET") (hp : startswith USERS_PATH e.path = true) :
    (∀ uid, e.pathParameters = .params (some uid) → uid ≠ "" →
      lambda_handler e s =
        ((match getItem s.table uid with
          | none => error_response 404 "User not found"
          | some u => success_response (recToJson u) 200),
         { s with calls := s.calls ++ [DbOp.getOp] })) ∧
    ((e.pathParameters = .absent ∨ e.pathParameters = .params none ∨
        e.pathParameters = .params (some "")) →
      lambda_handler e s =
        (success_response (.jarr (s.table.map recToJson)) 200,
         { s with calls := s.calls ++ [DbOp.scanOp] })) ∧
    (e.pathParameters = .null →
      lambda_handler e s =
        (error_response 500 ("Internal Server Error: " ++ pyExcMessage .attributeError),
         s)) := by
  refine ⟨?_, ?_, ?_⟩
  · intro uid hpp hne
    rw [lambda_handler_get e s hm hp]
    cases hg : getItem s.table uid with
    | none => rw [get_user_notfound e s uid hpp hne hg]; rfl
    | some u => rw [get_user_found e s uid u hpp hne hg]; rfl
  · intro hpp
    rw [lambda_handler_get e s hm hp, get_user_list e s hpp]
    rfl
  · intro hpp
    rw [lambda_handler_get e s hm hp]
    unfold get_user
    rw [hpp]
    rfl

/-- Witness for C4 (amended): GET on the bare collection path with no
`pathParameters` key lists the (empty) collection. -/
theorem get_users_route_amended_witness :
    lambda_handler ⟨"GET", "/users", .absent, .absent⟩ st0
      = (success_response (.jarr []) 200, ⟨[], 0, [DbOp.scanOp]⟩) :=
  (get_users_route_amended _ st0 rfl (by decide)).2.1 (Or.inl rfl)

/-- Claim C8: DELETE with a (nonempty) `user_id` removes the record
unconditionally and returns 204 with a confirmation message; afterwards the
key is gone, a fetch gives 404, and a second delete still returns 204. -/
theorem delete_user_spec (e : Event) (s : State) (uid : String)
    (hm : e.httpMethod = "DELETE") (hp : startswith USERS_PATH e.path = true)
    (hpp : e.pathParameters = .params (some uid)) (hne : uid ≠ "") :
    lambda_handler e s =
      (success_response
         (.jobj [("message", .jstr ("User " ++ uid ++ " deleted successfully"))]) 204,
       { s with table := deleteItem s.table uid,
                calls := s.calls ++ [DbOp.deleteOp] }) ∧
    getItem ((lambda_handler e s).2.table) uid = none ∧
    (∀ eg : Event, eg.httpMethod = "GET" → startswith USERS_PATH eg.path = true →
      eg.pathParameters = .params (some uid) →
      (lambda_handler eg (lambda_handler e s).2).1
        = error_response 404 "User not found") ∧
    (lambda_handler e (lambda_handler e s).2).1.statusCode = 204 := by
  have hdel : lambda_handler e s =
      (success_response
         (.jobj [("message", .jstr ("User " ++ uid ++ " deleted successfully"))]) 204,
       { s with table := deleteItem s.table uid,
                calls := s.calls ++ [DbOp.deleteOp] }) := by
    rw [lambda_handler_delete e s hm hp, delete_user_eval e s uid hpp hne]
    rfl
  refine ⟨hdel, ?_, ?_, ?_⟩
  · rw [hdel]
    exact getItem_deleteItem s.table uid
  · intro eg hgm hgp hgpp
    rw [hdel, lambda_handler_get eg _ hgm hgp,
        get_user_notfound eg _ uid hgpp hne (getItem_deleteItem s.table uid)]
    rfl
  · rw [hdel, lambda_handler_delete e _ hm hp, delete_user_eval e _ uid hpp hne]
    rfl

/-- Witness for C8 at a concrete one-record world. -/
theorem delete_user_spec_witness :
    lambda_handler ⟨"DELETE", "/users/u", .params (some "u"), .absent⟩ stAna
      = (success_response
           (.jobj [("message", .jstr ("User " ++ "u" ++ " deleted successfully"))]) 204,
         ⟨[], 1, [DbOp.deleteOp]⟩) :=
  (delete_user_spec _ stAna "u" rfl (by decide) rfl (by decide)).1

/-- Claim C2: a POST /users event whose body parses to a JSON object with both
`name` and `email` is answered 201, the body being the full written
three-field record with a freshly generated nonempty `user_id` distinct from
every previously generated id, and the supplied `name` and `email` unchanged;
the record is indeed written (retrievable) in the resulting table. -/
theorem create_user_response (e : Event) (s : State) (fs : List (String × JsonVal))
    (nm em : JsonVal)
    (hm : e.httpMethod = "POST") (hp : e.path = USERS_PATH)
    (hb : e.body = .parsed (.jobj fs))
    (hnm : jsonGet (.jobj fs) "name" = .ok nm)
    (hem : jsonGet (.jobj fs) "email" = .ok em) :
    lambda_handler e s =
      (success_response (recToJson ⟨uuidStr s.nextUuid, nm, em⟩) 201,
       { table := putItem s.table ⟨uuidStr s.nextUuid, nm, em⟩,
         nextUuid := s.nextUuid + 1,
         calls := s.calls ++ [DbOp.putOp] }) ∧
    getItem (putItem s.table ⟨uuidStr s.nextUuid, nm, em⟩) (uuidStr s.nextUuid)
      = some ⟨uuidStr s.nextUuid, nm, em⟩ ∧
    uuidStr s.nextUuid ≠ "" ∧
    (∀ k, k < s.nextUuid → uuidStr s.nextUuid ≠ uuidStr k) := by
  refine ⟨?_, ?_, uuidStr_ne_empty _, ?_⟩
  · rw [lambda_handler_post e s hm hp, create_user_eval e s fs nm em hb hnm hem]
    rfl
  · exact getItem_putItem s.table ⟨uuidStr s.nextUuid, nm, em⟩
  · intro k hk heq
    exact absurd (uuidStr_inj heq) (by omega)

/-- Witness for C2 at the concrete Ana event on the empty world. -/
theorem create_user_response_witness :
    lambda_handler evAna st0
      = (success_response (recToJson ⟨uuidStr 0, .jstr "Ana", .jstr "ana@x.com"⟩) 201,
         ⟨[⟨uuidStr 0, .jstr "Ana", .jstr "ana@x.com"⟩], 1, [DbOp.putOp]⟩) :=
  (create_user_response evAna st0 _ _ _ rfl rfl rfl rfl rfl).1

/-- Claim C1: creating a user via POST /users and then issuing a GET under
the users path whose `user_id` path parameter is the id returned by the 201
response yields a 200 response carrying a record with the same `user_id`,
`name` and `email` as the created one. -/
theorem create_then_get_roundtrip (ec : Event) (s : State)
    (fs : List (String × JsonVal)) (nm em : JsonVal)
    (hm : ec.httpMethod = "POST") (hp : ec.path = USERS_PATH)
    (hb : ec.body = .parsed (.jobj fs))
    (hnm : jsonGet (.jobj fs) "name" = .ok nm)
    (hem : jsonGet (.jobj fs) "email" = .ok em)
    (eg : Event) (hgm : eg.httpMethod = "GET")
    (hgp : startswith USERS_PATH eg.path = true)
    (hgpp : eg.pathParameters = .params (some (uuidStr s.nextUuid))) :
    (lambda_handler ec s).1.statusCode = 201 ∧
    (lambda_handler ec s).1.body = recToJson ⟨uuidStr s.nextUuid, nm, em⟩ ∧
    (lambda_handler eg (lambda_handler ec s).2).1
      = success_response (recToJson ⟨uuidStr s.nextUuid, nm, em⟩) 200 := by
  have hcreate : lambda_handler ec s =
      (success_response (recToJson ⟨uuidStr s.nextUuid, nm, em⟩) 201,
       { table := putItem s.table ⟨uuidStr s.nextUuid, nm, em⟩,
         nextUuid := s.nextUuid + 1,
         calls := s.calls ++ [DbOp.putOp] }) := by
    rw [lambda_handler_post ec s hm hp, create_user_eval ec s fs nm em hb hnm hem]
    rfl
  refine ⟨by rw [hcreate]; rfl, by rw [hcreate]; rfl, ?_⟩
  rw [hcreate, lambda_handler_get eg _ hgm hgp,
      get_user_found eg _ (uuidStr s.nextUuid) ⟨uuidStr s.nextUuid, nm, em⟩ hgpp
        (uuidStr_ne_empty _) (getItem_putItem s.table ⟨uuidStr s.nextUuid, nm, em⟩)]
  rfl

/-- Witness for C1: create Ana, then fetch the returned id. -/
theorem create_then_get_roundtrip_witness :
    (lambda_handler evAna st0).1.statusCode = 201 ∧
    (lambda_handler evAna st0).1.body
      = recToJson ⟨uuidStr 0, .jstr "Ana", .jstr "ana@x.com"⟩ ∧
    (lambda_handler ⟨"GET", "/users/u", .params (some (uuidStr 0)), .absent⟩
        (lambda_handler evAna st0).2).1
      = success_response (recToJson ⟨uuidStr 0, .jstr "Ana", .jstr "ana@x.com"⟩) 200 :=
  create_then_get_roundtrip evAna st0 _ _ _ rfl rfl rfl rfl rfl
    ⟨"GET", "/users/u", .params (some (uuidStr 0)), .absent⟩ rfl (by decide) rfl

/-- Claim C6: for a PUT /users/{user_id} event with a (nonempty) `user_id`
and a body holding `name` and `email`, applying the update twice leaves the
same backend-table state as applying it once, and a subsequent fetch of that
id returns the new `name` and `email`. -/
theorem update_idempotent (e : Event) (s : State) (uid : String)
    (fs : List (String × JsonVal)) (nm em : JsonVal)
    (hm : e.httpMethod = "PUT") (hp : startswith USERS_PATH e.path = true)
    (hpp : e.pathParameters = .params (some uid)) (hne : uid ≠ "")
    (hb : e.body = .parsed (.jobj fs))
    (hnm : jsonGet (.jobj fs) "name" = .ok nm)
    (hem : jsonGet (.jobj fs) "email" = .ok em) :
    (lambda_handler e (lambda_handler e s).2).2.table = (lambda_handler e s).2.table ∧
    (∀ eg : Event, eg.httpMethod = "GET" → startswith USERS_PATH eg.path = true →
      eg.pathParameters = .params (some uid) →
      (lambda_handler eg (lambda_handler e s).2).1
        = success_response (recToJson ⟨uid, nm, em⟩) 200) := by
  have h1 : lambda_handler e s =
      (success_response (.jobj [("message", .jstr "User updated successfully")]) 200,
       { s with table := updateItem s.table uid nm em,
                calls := s.calls ++ [DbOp.updateOp] }) := by
    rw [lambda_handler_put e s hm hp, update_user_eval e s uid fs nm em hpp hne hb hnm hem]
    rfl
  constructor
  · rw [h1, lambda_handler_put e _ hm hp, update_user_eval e _ uid fs nm em hpp hne hb hnm hem]
    exact updateItem_idem s.table uid nm em
  · intro eg hgm hgp hgpp
    rw [h1, lambda_handler_get eg _ hgm hgp,
        get_user_found eg _ uid ⟨uid, nm, em⟩ hgpp hne (getItem_updateItem s.table uid nm em)]
    rfl

/-- Witness for C6: update Ana to Bia, check idempotence and the re-fetch. -/
theorem update_idempotent_witness :
    (lambda_handler evPutBia (lambda_handler evPutBia stAna).2).2.table
        = (lambda_handler evPutBia stAna).2.table ∧
    (lambda_handler ⟨"GET", "/users/u", .params (some "u"), .absent⟩
        (lambda_handler evPutBia stAna).2).1
      = success_response (recToJson ⟨"u", .jstr "Bia", .jstr "bia@x.com"⟩) 200 := by
  have h := update_idempotent evPutBia stAna "u" _ _ _ rfl (by decide) rfl (by decide)
    rfl rfl rfl
  exact ⟨h.1, h.2 _ rfl (by decide) rfl⟩

/-- Counterexample to C7 as stated: POST /users with a null body (and with an
absent body key) is answered 500, not 400 `Invalid JSON format`: `json.loads`
raises `TypeError` (resp. the event indexing raises `KeyError`), neither of
which is a `JSONDecodeError`. -/
theorem invalid_body_500 :
    (lambda_handler ⟨"POST", "/users", .absent, BodySlot.null⟩ st0).1.statusCode = 500 ∧
    (lambda_handler ⟨"POST", "/users", .absent, BodySlot.absent⟩ st0).1.statusCode
        = 500 :=
  ⟨rfl, rfl⟩

/-- Claim C7 (amended): for POST /users events, and for PUT events under the
users path with a (nonempty) `user_id`, a present body string that fails JSON
parsing yields 400 `Invalid JSON format` with the state unchanged; a null or
absent body instead raises `TypeError`/`KeyError` and yields 500, also with
the state unchanged. -/
theorem invalid_json_amended (e : Event) (s : State)
    (hroute : e.httpMethod = "POST" ∧ e.path = USERS_PATH ∨
      (e.httpMethod = "PUT" ∧ startswith USERS_PATH e.path = true ∧
       ∃ uid, e.pathParameters = .params (some uid) ∧ uid ≠ "")) :
    (e.body = .malformed →
      lambda_handler e s = (error_response 400 "Invalid JSON format", s)) ∧
    (e.body = .null →
      (lambda_handler e s).1.statusCode = 500 ∧ (lambda_handler e s).2 = s) ∧
    (e.body = .absent →
      (lambda_handler e s).1.statusCode = 500 ∧ (lambda_handler e s).2 = s) := by
  rcases hroute with ⟨hm, hp⟩ | ⟨hm, hp, uid, hpp, hne⟩
  · refine ⟨?_, ?_, ?_⟩ <;> intro hbs <;>
      rw [lambda_handler_post e s hm hp] <;>
      simp [create_user, loadsEventBody, toResponse, error_response, hbs]
  · refine ⟨?_, ?_, ?_⟩ <;> intro hbs <;>
      rw [lambda_handler_put e s hm hp] <;>
      simp [update_user, getUserIdParam, falsyId, hpp, hne, loadsEventBody,
        toResponse, error_response, hbs]

/-- Witness for C7 (amended): an unparseable POST body yields 400. -/
theorem invalid_json_amended_witness :
    lambda_handler ⟨"POST", "/users", .absent, BodySlot.malformed⟩ st0
      = (error_response 400 "Invalid JSON format", st0) :=
  (invalid_json_amended _ st0 (Or.inl ⟨rfl, rfl⟩)).1 rfl

/-- Claim C10: whenever a POST or PUT invocation produces a 400 response
(missing id, missing fields, or unparseable body), the whole state — table,
uuid counter and backend-call log — is exactly what it was before, so no
storage write happened. -/
theorem validation_failure_atomic (e : Event) (s : State)
    (hm : e.httpMethod = "POST" ∨ e.httpMethod = "PUT")
    (h400 : (lambda_handler e s).1.statusCode = 400) :
    (lambda_handler e s).2 = s := by
  rcases hm with hm | hm
  · by_cases hp : e.path = USERS_PATH
    · rw [lambda_handler_post e s hm hp] at h400 ⊢
      exact create_user_atomic e s h400
    · have hnull : lambda_handler e s = (error_response 405 "Method Not Allowed", s) := by
        unfold lambda_handler
        rw [hm]
        simp [hp, toResponse]
      rw [hnull]
  · by_cases hp : startswith USERS_PATH e.path = true
    · rw [lambda_handler_put e s hm hp] at h400 ⊢
      exact update_user_atomic e s h400
    · have hnull : lambda_handler e s = (error_response 405 "Method Not Allowed", s) := by
        unfold lambda_handler
        rw [hm]
        simp [hp, toResponse]
      rw [hnull]

/-- Witness for C10: a malformed POST body gives 400 and leaves the empty
world untouched. -/
theorem validation_failure_atomic_witness :
    (lambda_handler ⟨"POST", "/users", .absent, BodySlot.malformed⟩ st0).2 = st0 :=
  validation_failure_atomic _ st0 (Or.inl rfl) rfl

end LambdaApi
